import Mathlib

/-!
Verification of the issue-ranking client of `pkg/jira` (file `issue.go`,
function `RankIssues`, payload type `IssueRankPayload`) together with the
rank instruction type `RankInput` of `rank.go`.

The embedding models:
  * the payload and instruction records,
  * Go's `encoding/json` marshalling of `IssueRankPayload` (struct field
    order, `omitempty` on the two reference fields, Go's default string
    escaping including HTML escaping),
  * the validation prologue of `RankIssues` (issue.go lines 419-427),
  * the dispatch of the PUT result (issue.go lines 438-463), with the HTTP
    transport passed in as a function from the marshalled request body to a
    transport outcome, exactly the data `RankIssues` hands to `PutV1` and
    reads back.

`formatUnexpectedResponse` and the sentinel `ErrEmptyResponse` are declared
in the repository's HTTP client layer, which is not part of the provided
sources; they are modelled from the specification where noted below.
-/

/-- Payload of `RankIssues` (issue.go lines 406-414).  Go struct tags:
`issues`, `rankBeforeIssue,omitempty`, `rankAfterIssue,omitempty`. -/
structure IssueRankPayload where
  issues : List String
  rankBeforeIssue : String
  rankAfterIssue : String
  deriving DecidableEq

/-- Rank instruction of rank.go lines 3-8.  Note there is no before field:
only `issues`, `rankAfterIssue,omitempty` and `rankFirst,omitempty`. -/
structure RankInput where
  issues : List String
  rankAfterIssue : String
  rankFirst : Bool
  deriving DecidableEq

/-- HTTP response as `RankIssues` consumes it: numeric status code,
status line (`res.Status`, e.g. "204 No Content"), and raw body. -/
structure HttpResponse where
  statusCode : Nat
  status : String
  body : String
  deriving DecidableEq

/-- Outcome of the transport call `c.PutV1`: a transport error, or a
response pointer that may be nil (Go returns `(*http.Response, error)`). -/
inductive TransportOutcome where
  | transportErr (msg : String)
  | response (res : Option HttpResponse)
  deriving DecidableEq

/-- Errors `RankIssues` can return.  In Go all of these are values of the
`error` interface; the constructors record their identity: the three
validation errors and the transport-wrap and multi-status errors are
`fmt.Errorf` values carrying a message, `emptyResponse` is the sentinel
`ErrEmptyResponse`, `unexpectedResponse` is the value built by
`formatUnexpectedResponse`. -/
inductive RankError where
  | validationError (msg : String)
  | transportError (msg : String)
  | emptyResponse
  | multiStatus (msg : String)
  | unexpectedResponse (msg : String)
  deriving DecidableEq

/-- Validation prologue of `RankIssues` (issue.go lines 419-427), in source
order: empty issue list, then neither reference set, then both set.
Returns the error message, or `none` when validation passes. -/
def rankValidationError (p : IssueRankPayload) : Option String :=
  if p.issues.length = 0 then
    some "no issues provided to rank"
  else if p.rankBeforeIssue = "" ∧ p.rankAfterIssue = "" then
    some "either rankBeforeIssue or rankAfterIssue must be specified"
  else if p.rankBeforeIssue ≠ "" ∧ p.rankAfterIssue ≠ "" then
    some "rankBeforeIssue and rankAfterIssue cannot both be specified"
  else
    none

/-- Lower-case hexadecimal digit, as Go's `encoding/json` emits in
`\u00xx` escapes. -/
def hexDigit (n : Nat) : Char :=
  if n < 10 then Char.ofNat (48 + n) else Char.ofNat (87 + n)

/-- Six-character `\uXXXX` escape sequence for a code point below 0x10000. -/
def uEscape (n : Nat) : String :=
  String.mk ['\\', 'u', hexDigit (n / 4096 % 16), hexDigit (n / 256 % 16),
    hexDigit (n / 16 % 16), hexDigit (n % 16)]

/-- Escaping of one character inside a JSON string, following Go's
`encoding/json` default encoder: quote and backslash get a backslash
escape, newline/carriage-return/tab get their short forms, other control
characters get `\u00xx`, and the HTML-sensitive characters and the line
separators U+2028/U+2029 are escaped as `\uXXXX`. -/
def jsonEscapeChar (c : Char) : String :=
  if c = '"' then "\\\""
  else if c = '\\' then "\\\\"
  else if c = '\n' then "\\n"
  else if c = '\r' then "\\r"
  else if c = '\t' then "\\t"
  else if c.toNat < 32 then uEscape c.toNat
  else if c = '<' ∨ c = '>' ∨ c = '&' then uEscape c.toNat
  else if c.toNat = 8232 ∨ c.toNat = 8233 then uEscape c.toNat
  else String.mk [c]

/-- Escaping of a whole string body. -/
def jsonEscape (s : String) : String :=
  String.join (s.toList.map jsonEscapeChar)

/-- A JSON string literal: escaped body between double quotes. -/
def quoteStr (s : String) : String :=
  "\"" ++ jsonEscape s ++ "\""

/-- Values appearing in the rank payload object: strings and arrays of
strings are the only shapes `IssueRankPayload` produces. -/
inductive RankJsonValue where
  | jstr (s : String)
  | jarr (ss : List String)
  deriving DecidableEq

/-- Rendering of a payload value. -/
def renderValue : RankJsonValue → String
  | .jstr s => quoteStr s
  | .jarr ss => "[" ++ String.intercalate "," (ss.map quoteStr) ++ "]"

/-- Fields of the marshalled payload object in Go struct order, with
`omitempty` dropping each reference field exactly when it is the empty
string (issue.go lines 406-414). -/
def rankPayloadFields (p : IssueRankPayload) : List (String × RankJsonValue) :=
  [("issues", RankJsonValue.jarr p.issues)]
    ++ (if p.rankBeforeIssue = "" then []
        else [("rankBeforeIssue", RankJsonValue.jstr p.rankBeforeIssue)])
    ++ (if p.rankAfterIssue = "" then []
        else [("rankAfterIssue", RankJsonValue.jstr p.rankAfterIssue)])

/-- Rendering of a JSON object from its field list. -/
def renderObj (fs : List (String × RankJsonValue)) : String :=
  "\x7b"
    ++ String.intercalate "," (fs.map (fun f => quoteStr f.1 ++ ":" ++ renderValue f.2))
    ++ "\x7d"

/-- The body `json.Marshal(payload)` produces, which `RankIssues` sends to
`PutV1` (issue.go line 429). -/
def marshalRankPayload (p : IssueRankPayload) : String :=
  renderObj (rankPayloadFields p)

/-- Opening brace character. -/
def obrace : Char := Char.ofNat 123

/-- Closing brace character. -/
def cbrace : Char := Char.ofNat 125

/-- Accumulates the body of a JSON string literal up to the closing
quote, returning the string and the remaining input. -/
def jstrAux : List Char → List Char → Option (String × List Char)
  | [], _ => none
  | c :: rest, acc =>
    if c = '"' then some (String.mk acc.reverse, rest)
    else jstrAux rest (c :: acc)

/-- Reads a JSON string literal starting at an opening quote. -/
def readJString : List Char → Option (String × List Char)
  | c :: rest => if c = '"' then jstrAux rest [] else none
  | [] => none

/-- Reads the comma-separated string elements of a JSON array up to the
closing bracket; fuelled to make the recursion structural. -/
def arrElems : Nat → List Char → Option (List String × List Char)
  | _, ']' :: rest => some ([], rest)
  | 0, _ => none
  | fuel + 1, cs =>
    match readJString cs with
    | none => none
    | some (s, cs1) =>
      match cs1 with
      | ',' :: cs2 =>
        match arrElems fuel cs2 with
        | some (ss, r) => some (s :: ss, r)
        | none => none
      | ']' :: r => some ([s], r)
      | _ => none

/-- Reads the comma-separated string-to-string pairs of a JSON object up
to the closing brace; fuelled to make the recursion structural. -/
def objPairsAux : Nat → List Char → Option (List (String × String) × List Char)
  | _, [] => none
  | 0, c :: rest => if c = cbrace then some ([], rest) else none
  | fuel + 1, c :: rest =>
    if c = cbrace then some ([], rest)
    else
      match readJString (c :: rest) with
      | none => none
      | some (k, cs1) =>
        match cs1 with
        | ':' :: cs2 =>
          match readJString cs2 with
          | none => none
          | some (v, cs3) =>
            match cs3 with
            | ',' :: cs4 =>
              match objPairsAux fuel cs4 with
              | some (ps, r) => some ((k, v) :: ps, r)
              | none => none
            | c2 :: r => if c2 = cbrace then some ([(k, v)], r) else none
            | [] => none
        | _ => none

/-- Drops an expected literal from the front of the input, failing when it
is not there. -/
def stripLit (lit cs : List Char) : Option (List Char) :=
  if lit.isPrefixOf cs then some (cs.drop lit.length) else none

/-- Modelled from the spec: the error-body shape the client layer parses
out of a non-success response, documented in the spec's wire contract as
`\x7berrorMessages: [string], errors: \x7bfield: string\x7d\x7d`.  The
parsing itself lives in `formatUnexpectedResponse` of the repository's
HTTP client layer, which is not among the provided sources.  Returns the
error-message list and the per-field error map, or `none` when the body
does not have that shape (unparseable). -/
def parseErrorBody (body : String) : Option (List String × List (String × String)) :=
  let cs := body.toList
  match stripLit (obrace :: String.toList "\"errorMessages\":[") cs with
  | none => none
  | some cs1 =>
    match arrElems cs.length cs1 with
    | none => none
    | some (msgs, cs2) =>
      match stripLit (String.toList ",\"errors\":" ++ [obrace]) cs2 with
      | none => none
      | some cs3 =>
        match objPairsAux cs.length cs3 with
        | none => none
        | some (fs, cs4) =>
          if cs4 = [cbrace] then some (msgs, fs) else none

/-- Modelled from the spec: `formatUnexpectedResponse`, declared in the
repository's HTTP client layer outside the provided sources.  Per the
spec, the failure message embeds the status line and any parseable error
fields from the body (the top-level error-message list and the per-field
error map) when present, and falls back to a generic "unexpected
response" message including the status line when the body is empty or
unparseable; per the spec's testable property for the empty-body case the
message reads "unexpected response: <status> with empty body". -/
def formatUnexpectedResponse (res : HttpResponse) : RankError :=
  if res.body = "" then
    RankError.unexpectedResponse ("unexpected response: " ++ res.status ++ " with empty body")
  else
    match parseErrorBody res.body with
    | some (msgs, fields) =>
      RankError.unexpectedResponse
        (String.intercalate ", " (msgs ++ fields.map (fun f => f.2)) ++ ": " ++ res.status)
    | none =>
      RankError.unexpectedResponse ("unexpected response: " ++ res.status)

/-- Interpretation of the transport outcome of the rank PUT (issue.go
lines 438-463): a transport error is wrapped, a nil response is the
sentinel `ErrEmptyResponse`, 204 is success, 207 yields the multi-status
error embedding the status line without reading the body, and every other
response goes to `formatUnexpectedResponse`. -/
def rankDispatch : TransportOutcome → Except RankError Unit
  | .transportErr m =>
    Except.error (RankError.transportError ("failed to call rank issues API: " ++ m))
  | .response none => Except.error RankError.emptyResponse
  | .response (some res) =>
    if res.statusCode = 204 then Except.ok ()
    else if res.statusCode = 207 then
      Except.error (RankError.multiStatus
        ("rank issues operation resulted in multi-status (some may have failed): " ++ res.status))
    else Except.error (formatUnexpectedResponse res)

/-- `RankIssues` (issue.go lines 418-464): validate the payload, marshal
it, hand the marshalled body to the transport's PUT, and dispatch on the
result.  The transport is the function `put`; validation failing before
`put` is consulted models "no network call".  (`json.Marshal` cannot fail
on `IssueRankPayload`, so the marshal-error branch of line 430 is
unreachable and has no counterpart here.) -/
def rankIssues (p : IssueRankPayload) (put : String → TransportOutcome) :
    Except RankError Unit :=
  match rankValidationError p with
  | some m => Except.error (RankError.validationError m)
  | none => rankDispatch (put (marshalRankPayload p))

/-- The three reference modes the spec names for a rank instruction:
rank before an issue, rank after an issue, or rank first. -/
inductive RankReference where
  | before (key : String)
  | after (key : String)
  | first
  deriving DecidableEq

/-- Payload handed to `RankIssues` for an instruction with the given
reference mode.  `IssueRankPayload`, the argument type of `RankIssues`,
carries no first flag (the `RankFirst` field lives only on `RankInput`,
which is consumed by a different client method), so a first-mode
instruction sets neither reference key. -/
def payloadFor (issues : List String) : RankReference → IssueRankPayload
  | .before k => ⟨issues, k, ""⟩
  | .after k => ⟨issues, "", k⟩
  | .first => ⟨issues, "", ""⟩

/-- A before/after mode whose reference key is non-empty; the first mode
is not keyed. -/
def RankReference.isKeyed : RankReference → Prop
  | .before k => k ≠ ""
  | .after k => k ≠ ""
  | .first => False

/-- JSON field name a keyed reference mode contributes to the payload. -/
def RankReference.fieldName : RankReference → String
  | .before _ => "rankBeforeIssue"
  | .after _ => "rankAfterIssue"
  | .first => ""

/-- Substring containment: `sub` occurs contiguously inside `s`. -/
def containsStr (s sub : String) : Prop :=
  ∃ pre post, s = pre ++ sub ++ post

/-- Dispatch form of `rankIssues` on payloads that pass validation. -/
theorem rankIssues_valid_eq (p : IssueRankPayload) (put : String → TransportOutcome)
    (h : rankValidationError p = none) :
    rankIssues p put = rankDispatch (put (marshalRankPayload p)) := by
  simp [rankIssues, h]

/-- Validation form of `rankIssues` on payloads that fail validation:
the transport is never consulted. -/
theorem rankIssues_invalid_eq (p : IssueRankPayload) (put : String → TransportOutcome)
    (m : String) (h : rankValidationError p = some m) :
    rankIssues p put = Except.error (RankError.validationError m) := by
  simp [rankIssues, h]

/-- C1 (amended): for every payload with a non-empty issue list whose
reference mode is before or after with a non-empty key, `RankIssues`
passes validation and the marshalled payload carries exactly the field of
that mode besides `issues`.  (The original claim also covered the first
mode, which `rankIssues_first_mode_rejected` refutes: `IssueRankPayload`
has no first flag, so a first-mode instruction fails validation.) -/
theorem rankIssues_keyed_reference_valid (issues : List String) (r : RankReference)
    (hne : issues ≠ []) (hr : r.isKeyed) :
    rankValidationError (payloadFor issues r) = none ∧
      (rankPayloadFields (payloadFor issues r)).map Prod.fst = ["issues", r.fieldName] := by
  have hlen : issues.length ≠ 0 := by
    simpa using fun hl => hne (List.length_eq_zero.mp hl)
  cases r with
  | before k =>
    have hk : k ≠ "" := hr
    constructor
    · simp [rankValidationError, payloadFor, hlen, hk]
    · simp [rankPayloadFields, payloadFor, RankReference.fieldName, hk]
  | after k =>
    have hk : k ≠ "" := hr
    constructor
    · simp [rankValidationError, payloadFor, hlen, hk]
    · simp [rankPayloadFields, payloadFor, RankReference.fieldName, hk]
  | first => exact absurd hr (by simp [RankReference.isKeyed])

/-- C1 witness: the amended statement at issues = ["TEST-1"] and the
after-mode reference "TEST-2". -/
theorem rankIssues_keyed_reference_valid_witness :
    rankValidationError (payloadFor ["TEST-1"] (RankReference.after "TEST-2")) = none ∧
      (rankPayloadFields (payloadFor ["TEST-1"] (RankReference.after "TEST-2"))).map Prod.fst =
        ["issues", (RankReference.after "TEST-2").fieldName] :=
  rankIssues_keyed_reference_valid ["TEST-1"] (RankReference.after "TEST-2")
    (by decide) (by show ("TEST-2" : String) ≠ ""; decide)

/-- C1 counterexample: a first-mode instruction over the non-empty issue
list ["TEST-1"] sets exactly one of the three reference modes, yet
`RankIssues` does not pass validation: it returns the missing-reference
validation error, because its payload type has no first flag and a
first-mode instruction leaves both reference keys unset. -/
theorem rankIssues_first_mode_rejected :
    rankValidationError (payloadFor ["TEST-1"] RankReference.first) =
      some "either rankBeforeIssue or rankAfterIssue must be specified" := by
  decide

/-- C2: a payload with an empty issue list, or with neither reference
set, or with both references set, makes `RankIssues` return a validation
error, and the result is the same whatever the transport would answer —
the PUT is never consulted. -/
theorem rankIssues_invalid_no_network (p : IssueRankPayload)
    (h : p.issues = [] ∨ (p.rankBeforeIssue = "" ∧ p.rankAfterIssue = "") ∨
      (p.rankBeforeIssue ≠ "" ∧ p.rankAfterIssue ≠ "")) :
    ∃ m, ∀ put : String → TransportOutcome,
      rankIssues p put = Except.error (RankError.validationError m) := by
  have hv : ∃ m, rankValidationError p = some m := by
    by_cases h0 : p.issues.length = 0
    · exact ⟨"no issues provided to rank", by simp [rankValidationError, h0]⟩
    · rcases h with h | ⟨hb, ha⟩ | ⟨hb, ha⟩
      · exact absurd (by simp [h]) h0
      · exact ⟨"either rankBeforeIssue or rankAfterIssue must be specified",
          by simp [rankValidationError, h0, hb, ha]⟩
      · exact ⟨"rankBeforeIssue and rankAfterIssue cannot both be specified",
          by simp [rankValidationError, h0, hb, ha]⟩
  obtain ⟨m, hm⟩ := hv
  exact ⟨m, fun put => rankIssues_invalid_eq p put m hm⟩

/-- C2 witness: the payload with issues = ["TEST-1"] and both references
set is rejected identically for every transport. -/
theorem rankIssues_invalid_no_network_witness :
    ∃ m, ∀ put : String → TransportOutcome,
      rankIssues ⟨["TEST-1"], "TEST-2", "TEST-3"⟩ put =
        Except.error (RankError.validationError m) :=
  rankIssues_invalid_no_network ⟨["TEST-1"], "TEST-2", "TEST-3"⟩
    (Or.inr (Or.inr ⟨by decide, by decide⟩))

/-- C3: for every payload passing validation, a 204 response makes
`RankIssues` succeed, whatever the status line and body carry. -/
theorem rankIssues_204_success (p : IssueRankPayload) (status body : String)
    (h : rankValidationError p = none) :
    rankIssues p (fun _ => TransportOutcome.response (some ⟨204, status, body⟩)) =
      Except.ok () := by
  rw [rankIssues_valid_eq p _ h]
  rfl

/-- C3 witness: the valid payload ranking TEST-1 after TEST-2 succeeds on
a 204 response carrying an arbitrary body. -/
theorem rankIssues_204_success_witness :
    rankIssues ⟨["TEST-1"], "", "TEST-2"⟩
      (fun _ => TransportOutcome.response (some ⟨204, "204 No Content", "ignored"⟩)) =
      Except.ok () :=
  rankIssues_204_success ⟨["TEST-1"], "", "TEST-2"⟩ "204 No Content" "ignored" (by decide)

/-- C4: for every payload passing validation, a 207 response yields the
multi-status (partial-failure) error, its message contains the literal
status text "207 Multi-Status", and the result does not depend on the
response body — the body is not parsed. -/
theorem rankIssues_207_partial (p : IssueRankPayload) (body : String)
    (h : rankValidationError p = none) :
    ∃ m,
      rankIssues p (fun _ => TransportOutcome.response (some ⟨207, "207 Multi-Status", body⟩)) =
        Except.error (RankError.multiStatus m) ∧
      containsStr m "207 Multi-Status" ∧
      (∀ body',
        rankIssues p (fun _ => TransportOutcome.response (some ⟨207, "207 Multi-Status", body'⟩)) =
          rankIssues p (fun _ => TransportOutcome.response (some ⟨207, "207 Multi-Status", body⟩))) := by
  refine ⟨"rank issues operation resulted in multi-status (some may have failed): 207 Multi-Status",
    ?_, ⟨"rank issues operation resulted in multi-status (some may have failed): ", "", by decide⟩,
    ?_⟩
  · rw [rankIssues_valid_eq p _ h]
    rfl
  · intro body'
    rw [rankIssues_valid_eq p _ h, rankIssues_valid_eq p _ h]
    rfl

/-- C4 witness: the valid payload ranking TEST-1 after TEST-2 on a 207
response with body "Multi-status response body". -/
theorem rankIssues_207_partial_witness :
    ∃ m,
      rankIssues ⟨["TEST-1"], "", "TEST-2"⟩
        (fun _ => TransportOutcome.response
          (some ⟨207, "207 Multi-Status", "Multi-status response body"⟩)) =
        Except.error (RankError.multiStatus m) ∧
      containsStr m "207 Multi-Status" ∧
      (∀ body',
        rankIssues ⟨["TEST-1"], "", "TEST-2"⟩
          (fun _ => TransportOutcome.response (some ⟨207, "207 Multi-Status", body'⟩)) =
          rankIssues ⟨["TEST-1"], "", "TEST-2"⟩
            (fun _ => TransportOutcome.response
              (some ⟨207, "207 Multi-Status", "Multi-status response body"⟩))) :=
  rankIssues_207_partial ⟨["TEST-1"], "", "TEST-2"⟩ "Multi-status response body" (by decide)

/-- Error body the repository's test suite sends back with status 400. -/
def badRequestBody : String :=
  "\x7b\"errorMessages\":[\"Request failed\"],\"errors\":\x7b\"field\":\"Some issue with a field\"\x7d\x7d"

/-- C5: for every payload passing validation, a 400 response with the
documented error body produces a failure whose message contains
"Request failed", "Some issue with a field" and "400 Bad Request". -/
theorem rankIssues_400_error_detail (p : IssueRankPayload)
    (h : rankValidationError p = none) :
    ∃ m,
      rankIssues p
        (fun _ => TransportOutcome.response (some ⟨400, "400 Bad Request", badRequestBody⟩)) =
        Except.error (RankError.unexpectedResponse m) ∧
      containsStr m "Request failed" ∧
      containsStr m "Some issue with a field" ∧
      containsStr m "400 Bad Request" := by
  refine ⟨"Request failed, Some issue with a field: 400 Bad Request", ?_,
    ⟨"", ", Some issue with a field: 400 Bad Request", by decide⟩,
    ⟨"Request failed, ", ": 400 Bad Request", by decide⟩,
    ⟨"Request failed, Some issue with a field: ", "", by decide⟩⟩
  rw [rankIssues_valid_eq p _ h]
  rfl

/-- C5 witness: the valid payload ranking TEST-1 after TEST-2 on the 400
response with the documented error body. -/
theorem rankIssues_400_error_detail_witness :
    ∃ m,
      rankIssues ⟨["TEST-1"], "", "TEST-2"⟩
        (fun _ => TransportOutcome.response (some ⟨400, "400 Bad Request", badRequestBody⟩)) =
        Except.error (RankError.unexpectedResponse m) ∧
      containsStr m "Request failed" ∧
      containsStr m "Some issue with a field" ∧
      containsStr m "400 Bad Request" :=
  rankIssues_400_error_detail ⟨["TEST-1"], "", "TEST-2"⟩ (by decide)

/-- C6: for every payload passing validation, a nil response with no
transport error yields the distinct `ErrEmptyResponse` sentinel, while a
non-nil 200 response with an empty body yields an unexpected-response
failure whose constructor differs from the sentinel — the two outcomes
are never confused. -/
theorem rankIssues_nil_response_distinct (p : IssueRankPayload)
    (h : rankValidationError p = none) :
    rankIssues p (fun _ => TransportOutcome.response none) =
      Except.error RankError.emptyResponse ∧
    ∀ status : String, ∃ m,
      rankIssues p (fun _ => TransportOutcome.response (some ⟨200, status, ""⟩)) =
        Except.error (RankError.unexpectedResponse m) ∧
      RankError.unexpectedResponse m ≠ RankError.emptyResponse := by
  constructor
  · rw [rankIssues_valid_eq p _ h]
    rfl
  · intro status
    refine ⟨"unexpected response: " ++ status ++ " with empty body", ?_,
      fun hc => RankError.noConfusion hc⟩
    rw [rankIssues_valid_eq p _ h]
    rfl

/-- C6 witness: the valid payload ranking TEST-1 after TEST-2, with the
nil response and with the 200-empty-body response whose status line is
"200 OK". -/
theorem rankIssues_nil_response_distinct_witness :
    rankIssues ⟨["TEST-1"], "", "TEST-2"⟩ (fun _ => TransportOutcome.response none) =
      Except.error RankError.emptyResponse ∧
    ∀ status : String, ∃ m,
      rankIssues ⟨["TEST-1"], "", "TEST-2"⟩
        (fun _ => TransportOutcome.response (some ⟨200, status, ""⟩)) =
        Except.error (RankError.unexpectedResponse m) ∧
      RankError.unexpectedResponse m ≠ RankError.emptyResponse :=
  rankIssues_nil_response_distinct ⟨["TEST-1"], "", "TEST-2"⟩ (by decide)

/-- C7: for every payload passing validation, a 200 response with an
empty body yields an unexpected-response failure whose message contains
"200 OK with empty body". -/
theorem rankIssues_200_empty_body (p : IssueRankPayload)
    (h : rankValidationError p = none) :
    rankIssues p (fun _ => TransportOutcome.response (some ⟨200, "200 OK", ""⟩)) =
      Except.error
        (RankError.unexpectedResponse "unexpected response: 200 OK with empty body") ∧
    containsStr "unexpected response: 200 OK with empty body" "200 OK with empty body" := by
  constructor
  · rw [rankIssues_valid_eq p _ h]
    rfl
  · exact ⟨"unexpected response: ", "", by decide⟩

/-- C7 witness: the valid payload ranking TEST-1 after TEST-2 on the
200-with-empty-body response. -/
theorem rankIssues_200_empty_body_witness :
    rankIssues ⟨["TEST-1"], "", "TEST-2"⟩
      (fun _ => TransportOutcome.response (some ⟨200, "200 OK", ""⟩)) =
      Except.error
        (RankError.unexpectedResponse "unexpected response: 200 OK with empty body") ∧
    containsStr "unexpected response: 200 OK with empty body" "200 OK with empty body" :=
  rankIssues_200_empty_body ⟨["TEST-1"], "", "TEST-2"⟩ (by decide)

/-- C8: the payload with issues ["TEST-1"] and after-reference "TEST-2"
marshals to exactly the JSON text with the `issues` and `rankAfterIssue`
keys and no `rankBeforeIssue` key; in general an unset (empty-string)
before or after reference contributes no key to the marshalled object. -/
theorem marshalRankPayload_omits_unset_reference :
    marshalRankPayload ⟨["TEST-1"], "", "TEST-2"⟩ =
      "\x7b\"issues\":[\"TEST-1\"],\"rankAfterIssue\":\"TEST-2\"\x7d" ∧
    (∀ p : IssueRankPayload, p.rankBeforeIssue = "" →
      "rankBeforeIssue" ∉ (rankPayloadFields p).map Prod.fst) ∧
    (∀ p : IssueRankPayload, p.rankAfterIssue = "" →
      "rankAfterIssue" ∉ (rankPayloadFields p).map Prod.fst) := by
  refine ⟨by decide, ?_, ?_⟩
  · intro p hb
    rcases eq_or_ne p.rankAfterIssue "" with ha | ha <;>
      simp [rankPayloadFields, hb, ha]
  · intro p ha
    rcases eq_or_ne p.rankBeforeIssue "" with hb | hb <;>
      simp [rankPayloadFields, hb, ha]

/-- C8 witness: the concrete payload of the claim has no
`rankBeforeIssue` key among its marshalled fields. -/
theorem marshalRankPayload_omits_unset_reference_witness :
    "rankBeforeIssue" ∉ (rankPayloadFields ⟨["TEST-1"], "", "TEST-2"⟩).map Prod.fst :=
  marshalRankPayload_omits_unset_reference.2.1 ⟨["TEST-1"], "", "TEST-2"⟩ rfl

/-- C9: validation precedence — every payload with an empty issue list is
rejected with "no issues provided to rank" whatever the reference fields
hold and whatever the transport would answer; the reference checks are
only reached on a non-empty issue list. -/
theorem rankIssues_empty_issues_precedence (beforeKey afterKey : String)
    (put : String → TransportOutcome) :
    rankIssues ⟨[], beforeKey, afterKey⟩ put =
      Except.error (RankError.validationError "no issues provided to rank") := rfl

/-- C10: a reference is "set" exactly when it differs from the empty
string — the whitespace-only before-reference " " passes validation on a
non-empty issue list and is marshalled as a `rankBeforeIssue` field whose
value is " "; in general the `rankBeforeIssue` key is present iff the
field is not exactly the empty string. -/
theorem rankReference_empty_string_sentinel (issues : List String) (h : issues ≠ []) :
    rankValidationError ⟨issues, " ", ""⟩ = none ∧
    rankPayloadFields ⟨issues, " ", ""⟩ =
      [("issues", RankJsonValue.jarr issues), ("rankBeforeIssue", RankJsonValue.jstr " ")] ∧
    (∀ p : IssueRankPayload,
      "rankBeforeIssue" ∈ (rankPayloadFields p).map Prod.fst ↔ p.rankBeforeIssue ≠ "") := by
  have hlen : issues.length ≠ 0 := fun hl => h (List.length_eq_zero.mp hl)
  refine ⟨?_, ?_, ?_⟩
  · simp [rankValidationError, hlen]
  · simp [rankPayloadFields]
  · intro p
    rcases eq_or_ne p.rankBeforeIssue "" with hb | hb <;>
      rcases eq_or_ne p.rankAfterIssue "" with ha | ha <;>
      simp [rankPayloadFields, hb, ha]

/-- C10 witness: the claim at issues = ["TEST-1"]. -/
theorem rankReference_empty_string_sentinel_witness :
    rankValidationError ⟨["TEST-1"], " ", ""⟩ = none ∧
    rankPayloadFields ⟨["TEST-1"], " ", ""⟩ =
      [("issues", RankJsonValue.jarr ["TEST-1"]),
        ("rankBeforeIssue", RankJsonValue.jstr " ")] ∧
    (∀ p : IssueRankPayload,
      "rankBeforeIssue" ∈ (rankPayloadFields p).map Prod.fst ↔ p.rankBeforeIssue ≠ "") :=
  rankReference_empty_string_sentinel ["TEST-1"] (by decide)
